import Mathlib

/- Verification of sceptre's Jsonnet renderer (sceptre/jsonnet_renderer.py).

   The module under study resolves Jsonnet imports for a template directory:
   a reserved sentinel name is served from a JSON serialization of caller
   supplied user data, every other request is resolved against the
   filesystem.  Paths are manipulated as raw strings in the source
   (indexing the first and last character), so the embedding keeps paths
   as `String` and models the filesystem as an abstract map from path
   strings to file information. -/

/-- JSON values, modelling the Python objects that can be passed as
`sceptre_user_data` and serialized with `json.dumps`. -/
inductive Json where
  | null : Json
  | bool : Bool → Json
  | num : Int → Json
  | str : String → Json
  | arr : List Json → Json
  | obj : List (String × Json) → Json

/-- Hexadecimal digit character for a value below 16, lower case as in
Python's `json.dumps`. -/
def hex_digit (n : Nat) : Char :=
  if n < 10 then Char.ofNat (48 + n) else Char.ofNat (87 + n)

/-- Four-digit hexadecimal rendering used by the `\u` escapes of
`json.dumps` with its default `ensure_ascii=True`. -/
def to_hex4 (n : Nat) : String :=
  String.mk [hex_digit (n / 4096 % 16), hex_digit (n / 256 % 16),
             hex_digit (n / 16 % 16), hex_digit (n % 16)]

/-- Escaping of one character inside a JSON string literal, following
`json.dumps` with its defaults: the two mandatory escapes, the short
control escapes, and `\u` escapes (with surrogate pairs beyond the basic
plane) for every other control or non-ASCII character. -/
def escape_char (c : Char) : String :=
  if c = '"' then "\\\""
  else if c = '\\' then "\\\\"
  else if c = '\n' then "\\n"
  else if c = '\t' then "\\t"
  else if c = '\r' then "\\r"
  else if c.toNat = 8 then "\\b"
  else if c.toNat = 12 then "\\f"
  else if c.toNat < 32 ∨ c.toNat > 126 then
    if c.toNat ≤ 65535 then "\\u" ++ to_hex4 c.toNat
    else
      "\\u" ++ to_hex4 (55296 + (c.toNat - 65536) / 1024) ++
      "\\u" ++ to_hex4 (56320 + (c.toNat - 65536) % 1024)
  else String.singleton c

/-- JSON string literal rendering: quotes around the escaped characters. -/
def dump_string (s : String) : String :=
  "\"" ++ String.join (s.data.map escape_char) ++ "\""

mutual

/-- Serialization of a JSON value following Python's `json.dumps` with its
default separators `(", ", ": ")`, insertion order preserved. -/
def json_dumps : Json → String
  | .null => "null"
  | .bool true => "true"
  | .bool false => "false"
  | .num n => toString n
  | .str s => dump_string s
  | .arr xs => "[" ++ dump_arr xs ++ "]"
  | .obj kvs => "\x7b" ++ dump_obj kvs ++ "\x7d"

/-- Comma-separated serialization of array elements. -/
def dump_arr : List Json → String
  | [] => ""
  | [x] => json_dumps x
  | x :: xs => json_dumps x ++ ", " ++ dump_arr xs

/-- Comma-separated serialization of object members. -/
def dump_obj : List (String × Json) → String
  | [] => ""
  | [kv] => dump_string kv.1 ++ ": " ++ json_dumps kv.2
  | kv :: kvs => dump_string kv.1 ++ ": " ++ json_dumps kv.2 ++ ", " ++ dump_obj kvs

end

/-- Abstract filesystem state: which path strings name regular files,
which name directories, and the text content behind each file path.
`read p` is only meaningful where `isfile p` holds. -/
structure FS where
  isfile : String → Bool
  isdir : String → Bool
  read : String → String

/-- POSIX well-formedness of a filesystem state: a regular file's path
never ends in the separator, a directory is not a regular file, and the
empty string names no file. -/
def FS.WF (fs : FS) : Prop :=
  (∀ p, fs.isfile p = true → p.back ≠ '/') ∧
  (∀ p, fs.isdir p = true → fs.isfile p = false) ∧
  fs.isfile "" = false

/-- Python's `os.path.join(a, b)` for POSIX paths and two components: an
absolute second component replaces the first, otherwise the components
are concatenated with exactly one separator between them. -/
def os_path_join (a b : String) : String :=
  if b.front = '/' then b
  else if a = "" then a ++ b
  else if a.back = '/' then a ++ b
  else a ++ "/" ++ b

namespace JsonnetRenderer

/-- The `full_path` computation inside `JsonnetRenderer.try_path`: the
requested path itself when it begins with a separator, otherwise the
join of the template directory with the requested path. -/
def resolve_path (template_dir import_path : String) : String :=
  if import_path.front = '/' then import_path
  else os_path_join template_dir import_path

/-- Embedding of `JsonnetRenderer.try_path`: reject the empty request,
resolve the path, reject a resolved path ending in the separator, and
return the resolved path with the file content when a regular file is
there, with no content otherwise.  Errors are the `RuntimeError`
messages of the source. -/
def try_path (template_dir import_path : String) (fs : FS) :
    Except String (String × Option String) :=
  if import_path = "" then
    .error "Got invalid filename (empty string)."
  else
    let full_path := resolve_path template_dir import_path
    if full_path.back = '/' then
      .error "Attempted to import a directory"
    else if fs.isfile full_path = false then
      .ok (full_path, none)
    else
      .ok (full_path, some (fs.read full_path))

/-- Embedding of `JsonnetRenderer.import_callback`: the reserved name
`sceptre_user_data` is served from the JSON serialization of the user
data; any other request goes through `try_path`, whose content is
returned when truthy in Python's sense (present and non-empty), and is
otherwise escalated to the file-not-found error. -/
def import_callback (sceptre_user_data : Json)
    (template_dir import_path : String) (fs : FS) :
    Except String (String × String) :=
  if import_path = "sceptre_user_data" then
    .ok ("sceptre_user_data", json_dumps sceptre_user_data)
  else
    match try_path template_dir import_path fs with
    | .error e => .error e
    | .ok (full_path, content) =>
      match content with
      | some c => if c = "" then .error "File not found" else .ok (full_path, c)
      | none => .error "File not found"

end JsonnetRenderer

/-- Filesystem access to `os.path.isfile`, threaded as a state
transition: a metadata lookup leaves the filesystem unchanged. -/
def FS.isfile_st (fs : FS) (p : String) : Bool × FS := (fs.isfile p, fs)

/-- Filesystem access to `open(p).read()`, threaded as a state
transition: the source only reads the file, so the state is unchanged. -/
def FS.read_st (fs : FS) (p : String) : String × FS := (fs.read p, fs)

namespace JsonnetRenderer

/-- State-passing form of `try_path`, with each filesystem access
threaded through the filesystem state explicitly, to record which state
later calls observe. -/
def try_path_st (template_dir import_path : String) (fs : FS) :
    Except String (String × Option String) × FS :=
  if import_path = "" then
    (.error "Got invalid filename (empty string).", fs)
  else
    let full_path := resolve_path template_dir import_path
    if full_path.back = '/' then
      (.error "Attempted to import a directory", fs)
    else
      let step := fs.isfile_st full_path
      if step.1 = false then
        (.ok (full_path, none), step.2)
      else
        let step2 := step.2.read_st full_path
        (.ok (full_path, some step2.1), step2.2)

/-- State-passing form of `import_callback`, built on `try_path_st`. -/
def import_callback_st (sceptre_user_data : Json)
    (template_dir import_path : String) (fs : FS) :
    Except String (String × String) × FS :=
  if import_path = "sceptre_user_data" then
    (.ok ("sceptre_user_data", json_dumps sceptre_user_data), fs)
  else
    let step := try_path_st template_dir import_path fs
    match step.1 with
    | .error e => (.error e, step.2)
    | .ok (full_path, content) =>
      match content with
      | some c =>
        if c = "" then (.error "File not found", step.2)
        else (.ok (full_path, c), step.2)
      | none => (.error "File not found", step.2)

/-- Embedding of `JsonnetRenderer.render`: the native evaluator
`_jsonnet.evaluate_file` lives outside this repository, so it is a
parameter; `render` hands it the join of the template directory with
the filename together with `import_callback` partially applied to the
user data, and returns its output verbatim. -/
def render
    (evaluate_file :
      String → (String → String → FS → Except String (String × String)) →
      FS → String)
    (template_dir filename : String) (sceptre_user_data : Json)
    (fs : FS) : String :=
  let cb := import_callback sceptre_user_data
  let body := evaluate_file (os_path_join template_dir filename) cb fs
  body

end JsonnetRenderer

/-- A filesystem with no files and no directories. -/
def fs_empty : FS := ⟨fun _ => false, fun _ => false, fun _ => ""⟩

/-- A filesystem whose only entry is a directory at `/base/d`. -/
def fs_dir_d : FS :=
  ⟨fun _ => false, fun p => decide (p = "/base/d"), fun _ => ""⟩

/-- A filesystem whose only entry is a directory at `/base/sub/`
(queried with a trailing separator, as `os.path.isdir` accepts). -/
def fs_dir_slash : FS :=
  ⟨fun _ => false, fun p => decide (p = "/base/sub/"), fun _ => ""⟩

/-- A filesystem whose only entry is a regular file at
`/base/empty.libsonnet` whose content is the empty string. -/
def fs_empty_file : FS :=
  ⟨fun p => decide (p = "/base/empty.libsonnet"), fun _ => false, fun _ => ""⟩

/-- A filesystem whose only entry is a regular file at
`/base/a.libsonnet` with content `hello`. -/
def fs_hello : FS :=
  ⟨fun p => decide (p = "/base/a.libsonnet"), fun _ => false,
   fun p => if p = "/base/a.libsonnet" then "hello" else ""⟩

/-- A filesystem holding a regular file at `/base/sceptre_user_data`,
the path the sentinel would resolve to if it were looked up on disk. -/
def fs_shadow : FS :=
  ⟨fun p => decide (p = "/base/sceptre_user_data"), fun _ => false,
   fun _ => "shadowed"⟩

/-- The state-passing embedding agrees with the pure one and returns the
filesystem state unchanged: the source performs only metadata lookups
and reads. -/
theorem import_callback_st_eq (ud : Json) (td ip : String) (fs : FS) :
    JsonnetRenderer.import_callback_st ud td ip fs
      = (JsonnetRenderer.import_callback ud td ip fs, fs) := by
  by_cases hs : ip = "sceptre_user_data"
  · simp [JsonnetRenderer.import_callback_st, JsonnetRenderer.import_callback, hs]
  · by_cases hp : ip = ""
    · simp [JsonnetRenderer.import_callback_st, JsonnetRenderer.import_callback,
        JsonnetRenderer.try_path_st, JsonnetRenderer.try_path, hs, hp]
    · by_cases hb : (JsonnetRenderer.resolve_path td ip).back = '/'
      · simp [JsonnetRenderer.import_callback_st, JsonnetRenderer.import_callback,
          JsonnetRenderer.try_path_st, JsonnetRenderer.try_path, hs, hp, hb]
      · by_cases hf : fs.isfile (JsonnetRenderer.resolve_path td ip) = false
        · simp [JsonnetRenderer.import_callback_st, JsonnetRenderer.import_callback,
            JsonnetRenderer.try_path_st, JsonnetRenderer.try_path,
            FS.isfile_st, FS.read_st, hs, hp, hb, hf]
        · by_cases hr : fs.read (JsonnetRenderer.resolve_path td ip) = "" <;>
            simp [JsonnetRenderer.import_callback_st, JsonnetRenderer.import_callback,
              JsonnetRenderer.try_path_st, JsonnetRenderer.try_path,
              FS.isfile_st, FS.read_st, hs, hp, hb, hf, hr]

/-- C2: an import request for the reserved sentinel name succeeds, for
every user-data mapping, with content the JSON serialization of the
mapping (`\x7b\x7d` for the empty mapping), and the result is the same
for every filesystem state. -/
theorem c2_sentinel_serializes_user_data (kvs : List (String × Json))
    (template_dir : String) (fs : FS) :
    JsonnetRenderer.import_callback (Json.obj kvs) template_dir "sceptre_user_data" fs
      = .ok ("sceptre_user_data", json_dumps (Json.obj kvs)) ∧
    json_dumps (Json.obj []) = "\x7b\x7d" ∧
    (∀ fs' : FS,
      JsonnetRenderer.import_callback (Json.obj kvs) template_dir "sceptre_user_data" fs'
        = JsonnetRenderer.import_callback (Json.obj kvs) template_dir "sceptre_user_data" fs) :=
  ⟨rfl, rfl, fun _ => rfl⟩

/-- C6: an import request with the empty string as its path fails with
the invalid-filename error, through `try_path` and `import_callback`
alike, independently of the template directory and of the filesystem
state (the check precedes any joining or filesystem access). -/
theorem c6_empty_import_path (ud : Json) (template_dir : String) (fs : FS) :
    JsonnetRenderer.try_path template_dir "" fs
      = .error "Got invalid filename (empty string)." ∧
    JsonnetRenderer.import_callback ud template_dir "" fs
      = .error "Got invalid filename (empty string)." ∧
    (∀ (td' : String) (fs' : FS),
      JsonnetRenderer.try_path template_dir "" fs
        = JsonnetRenderer.try_path td' "" fs') :=
  ⟨rfl, rfl, fun _ _ => rfl⟩

/-- C8: `render` invokes the evaluator on the join of the template
directory with the filename, configured with `import_callback` partially
applied to the user data, and returns the evaluator's output text
unchanged. -/
theorem c8_render_delegates_to_evaluator
    (evaluate_file :
      String → (String → String → FS → Except String (String × String)) →
      FS → String)
    (template_dir filename : String) (ud : Json) (fs : FS) :
    JsonnetRenderer.render evaluate_file template_dir filename ud fs
      = evaluate_file (os_path_join template_dir filename)
          (JsonnetRenderer.import_callback ud) fs ∧
    (∀ out : String,
      JsonnetRenderer.render (fun _ _ _ => out) template_dir filename ud fs = out) :=
  ⟨rfl, fun _ => rfl⟩

/-- The path component of a successful `try_path` result is always the
resolved path. -/
theorem try_path_ok_path (td p : String) (fs : FS) (r : String) (c : Option String)
    (h : JsonnetRenderer.try_path td p fs = .ok (r, c)) :
    r = JsonnetRenderer.resolve_path td p := by
  by_cases hp : p = ""
  · simp [JsonnetRenderer.try_path, hp] at h
  · simp only [JsonnetRenderer.try_path, if_neg hp] at h
    split at h
    · simp at h
    · split at h
      · simp at h
        exact h.1.symm
      · simp at h
        exact h.1.symm

/-- The outcome of `try_path` depends on the request only through the
resolved path (for a non-empty request). -/
theorem try_path_congr (td td2 p : String) (fs : FS)
    (h : JsonnetRenderer.resolve_path td p = JsonnetRenderer.resolve_path td2 p) :
    JsonnetRenderer.try_path td p fs = JsonnetRenderer.try_path td2 p fs := by
  simp only [JsonnetRenderer.try_path, h]

/-- The filesystem `fs_hello` is POSIX well-formed. -/
theorem fs_hello_wf : fs_hello.WF := by
  refine ⟨?_, ?_, ?_⟩
  · intro p h
    have hp : p = "/base/a.libsonnet" := by simpa [fs_hello] using h
    subst hp
    decide
  · intro p h
    simp [fs_hello] at h
  · rfl

/-- The filesystem `fs_dir_slash` is POSIX well-formed. -/
theorem fs_dir_slash_wf : fs_dir_slash.WF := by
  refine ⟨?_, ?_, ?_⟩
  · intro p h
    simp [fs_dir_slash] at h
  · intro _ _
    rfl
  · rfl

/-- C1 fails on the code as stated: a regular file that exists with
empty content is not returned; the truthiness test on the content
escalates it to the file-not-found error. -/
theorem c1_counterexample :
    fs_empty_file.isfile "/base/empty.libsonnet" = true ∧
    fs_empty_file.read "/base/empty.libsonnet" = "" ∧
    JsonnetRenderer.import_callback (Json.obj []) "/base" "empty.libsonnet" fs_empty_file
      = .error "File not found" :=
  ⟨rfl, rfl, rfl⟩

/-- C1 (amended): for a non-sentinel, non-empty request whose resolved
path exists as a regular file, `import_callback` returns the resolved
path and the file content when that content is non-empty, and fails
with the file-not-found error when the content is the empty string. -/
theorem c1_existing_file_import (ud : Json) (td p : String) (fs : FS)
    (hwf : fs.WF) (hp : p ≠ "") (hs : p ≠ "sceptre_user_data")
    (hfile : fs.isfile (JsonnetRenderer.resolve_path td p) = true) :
    JsonnetRenderer.import_callback ud td p fs =
      (if fs.read (JsonnetRenderer.resolve_path td p) = ""
       then .error "File not found"
       else .ok (JsonnetRenderer.resolve_path td p,
                 fs.read (JsonnetRenderer.resolve_path td p))) := by
  have hb : (JsonnetRenderer.resolve_path td p).back ≠ '/' := hwf.1 _ hfile
  simp [JsonnetRenderer.import_callback, JsonnetRenderer.try_path, hs, hp, hb, hfile]

/-- Witness for C1 at a concrete filesystem holding one non-empty
file. -/
theorem c1_witness :
    JsonnetRenderer.import_callback (Json.obj []) "/base" "a.libsonnet" fs_hello
      = .ok ("/base/a.libsonnet", "hello") := by
  have h := c1_existing_file_import (Json.obj []) "/base" "a.libsonnet" fs_hello
    fs_hello_wf (by decide) (by decide) (by rfl)
  exact h.trans rfl

/-- C3 fails on the code as stated: an existing directory whose request
has no trailing separator is escalated to the file-not-found error, not
the directory error. -/
theorem c3_counterexample :
    fs_dir_d.isdir "/base/d" = true ∧
    JsonnetRenderer.import_callback (Json.obj []) "/base" "d" fs_dir_d
      = .error "File not found" ∧
    "File not found" ≠ "Attempted to import a directory" :=
  ⟨rfl, rfl, by decide⟩

/-- C3 (amended): for a non-sentinel, non-empty request whose resolved
path is an existing directory, resolution fails with the directory
error exactly when the resolved path ends with the separator, and with
the file-not-found error otherwise. -/
theorem c3_directory_error_needs_trailing_separator (ud : Json) (td p : String) (fs : FS)
    (hwf : fs.WF) (hp : p ≠ "") (hs : p ≠ "sceptre_user_data")
    (hdir : fs.isdir (JsonnetRenderer.resolve_path td p) = true) :
    JsonnetRenderer.import_callback ud td p fs =
      (if (JsonnetRenderer.resolve_path td p).back = '/'
       then .error "Attempted to import a directory"
       else .error "File not found") := by
  have hfile : fs.isfile (JsonnetRenderer.resolve_path td p) = false := hwf.2.1 _ hdir
  by_cases hb : (JsonnetRenderer.resolve_path td p).back = '/'
  · simp [JsonnetRenderer.import_callback, JsonnetRenderer.try_path, hs, hp, hb]
  · simp [JsonnetRenderer.import_callback, JsonnetRenderer.try_path, hs, hp, hb, hfile]

/-- Witness for C3 at a concrete filesystem holding one directory,
requested with a trailing separator. -/
theorem c3_witness :
    JsonnetRenderer.import_callback (Json.obj []) "/base" "sub/" fs_dir_slash
      = .error "Attempted to import a directory" := by
  have h := c3_directory_error_needs_trailing_separator (Json.obj []) "/base" "sub/"
    fs_dir_slash fs_dir_slash_wf (by decide) (by decide) (by rfl)
  exact h.trans rfl

/-- C4 fails on the code as stated: a request whose resolved path ends
with the separator does not exist as a regular file, yet `try_path`
raises the directory error instead of returning the path with no
content. -/
theorem c4_counterexample :
    fs_empty.isfile "/base/foo/" = false ∧
    JsonnetRenderer.try_path "/base" "foo/" fs_empty
      = .error "Attempted to import a directory" :=
  ⟨rfl, rfl⟩

/-- C4 (amended): for a non-sentinel, non-empty request whose resolved
path does not end with the separator and does not exist as a regular
file, `try_path` returns the resolved path with no content, and
`import_callback` escalates that to the file-not-found error. -/
theorem c4_no_content_escalates (ud : Json) (td p : String) (fs : FS)
    (hp : p ≠ "") (hs : p ≠ "sceptre_user_data")
    (hb : (JsonnetRenderer.resolve_path td p).back ≠ '/')
    (hfile : fs.isfile (JsonnetRenderer.resolve_path td p) = false) :
    JsonnetRenderer.try_path td p fs = .ok (JsonnetRenderer.resolve_path td p, none) ∧
    JsonnetRenderer.import_callback ud td p fs = .error "File not found" := by
  constructor
  · simp [JsonnetRenderer.try_path, hp, hb, hfile]
  · simp [JsonnetRenderer.import_callback, JsonnetRenderer.try_path, hs, hp, hb, hfile]

/-- Witness for C4 at the empty filesystem and a missing relative
path. -/
theorem c4_witness :
    JsonnetRenderer.try_path "/base" "missing.libsonnet" fs_empty
      = .ok ("/base/missing.libsonnet", none) ∧
    JsonnetRenderer.import_callback (Json.obj []) "/base" "missing.libsonnet" fs_empty
      = .error "File not found" := by
  have h := c4_no_content_escalates (Json.obj []) "/base" "missing.libsonnet" fs_empty
    (by decide) (by decide) (by decide) rfl
  exact ⟨h.1.trans rfl, h.2⟩

/-- C5: a non-sentinel, non-empty request whose resolved path ends with
the separator and is an existing directory fails with the directory
error, from `try_path` and from `import_callback` alike. -/
theorem c5_trailing_separator_directory (ud : Json) (td p : String) (fs : FS)
    (hp : p ≠ "") (hs : p ≠ "sceptre_user_data")
    (hb : (JsonnetRenderer.resolve_path td p).back = '/')
    (hdir : fs.isdir (JsonnetRenderer.resolve_path td p) = true) :
    JsonnetRenderer.try_path td p fs = .error "Attempted to import a directory" ∧
    JsonnetRenderer.import_callback ud td p fs
      = .error "Attempted to import a directory" := by
  constructor
  · simp [JsonnetRenderer.try_path, hp, hb]
  · simp [JsonnetRenderer.import_callback, JsonnetRenderer.try_path, hs, hp, hb]

/-- Witness for C5 at a concrete filesystem holding one directory. -/
theorem c5_witness :
    JsonnetRenderer.try_path "/base" "sub/" fs_dir_slash
      = .error "Attempted to import a directory" ∧
    JsonnetRenderer.import_callback Json.null "/base" "sub/" fs_dir_slash
      = .error "Attempted to import a directory" :=
  c5_trailing_separator_directory Json.null "/base" "sub/" fs_dir_slash
    (by decide) (by decide) (by decide) rfl

/-- C7: an absolute request (beginning with the separator) is used
verbatim, with an outcome independent of the template directory and a
success path equal to the request; a relative non-empty request
resolves to the join of the template directory with the request. -/
theorem c7_absolute_verbatim_relative_joined (td td2 p : String) (fs : FS)
    (hp : p ≠ "") :
    (p.front = '/' →
      JsonnetRenderer.try_path td p fs = JsonnetRenderer.try_path td2 p fs ∧
      (∀ r : String, ∀ c : Option String,
        JsonnetRenderer.try_path td p fs = .ok (r, c) → r = p)) ∧
    (p.front ≠ '/' →
      ∀ r : String, ∀ c : Option String,
        JsonnetRenderer.try_path td p fs = .ok (r, c) → r = os_path_join td p) := by
  constructor
  · intro habs
    constructor
    · exact try_path_congr td td2 p fs (by simp [JsonnetRenderer.resolve_path, habs])
    · intro r c h
      have := try_path_ok_path td p fs r c h
      simpa [JsonnetRenderer.resolve_path, habs] using this
  · intro hrel r c h
    have := try_path_ok_path td p fs r c h
    simpa [JsonnetRenderer.resolve_path, hrel] using this

/-- Witness for C7 at an absolute request resolved against two distinct
template directories. -/
theorem c7_witness :
    JsonnetRenderer.try_path "/base" "/abs.jsonnet" fs_empty
      = JsonnetRenderer.try_path "/other" "/abs.jsonnet" fs_empty :=
  ((c7_absolute_verbatim_relative_joined "/base" "/other" "/abs.jsonnet" fs_empty
    (by decide)).1 (by decide)).1

/-- C10: the sentinel name shadows the filesystem: even when a regular
file sits at the path the sentinel would resolve to, the request is
answered from the user data, the returned path is the literal sentinel
name, and the result is the same for every filesystem state. -/
theorem c10_sentinel_shadows_filesystem (ud : Json) (td : String) (fs : FS)
    (hfile : fs.isfile (os_path_join td "sceptre_user_data") = true) :
    JsonnetRenderer.import_callback ud td "sceptre_user_data" fs
      = .ok ("sceptre_user_data", json_dumps ud) ∧
    (∀ fs' : FS,
      JsonnetRenderer.import_callback ud td "sceptre_user_data" fs'
        = JsonnetRenderer.import_callback ud td "sceptre_user_data" fs) :=
  ⟨rfl, fun _ => rfl⟩

/-- Witness for C10 at a concrete filesystem holding a regular file
named like the sentinel inside the template directory. -/
theorem c10_witness :
    fs_shadow.isfile (os_path_join "/base" "sceptre_user_data") = true ∧
    JsonnetRenderer.import_callback Json.null "/base" "sceptre_user_data" fs_shadow
      = .ok ("sceptre_user_data", "null") :=
  ⟨rfl, (c10_sentinel_shadows_filesystem Json.null "/base" fs_shadow rfl).1⟩

/-- C9: import resolution is stateless and deterministic: a call leaves
the filesystem state unchanged, a second identical call performed on the
state left by the first returns the identical result, and the
state-passing form agrees with the pure function of (user data, template
directory, requested path, filesystem state). -/
theorem c9_import_resolution_stateless (ud : Json) (td ip : String) (fs : FS) :
    (JsonnetRenderer.import_callback_st ud td ip fs).2 = fs ∧
    JsonnetRenderer.import_callback_st ud td ip
        ((JsonnetRenderer.import_callback_st ud td ip fs).2)
      = JsonnetRenderer.import_callback_st ud td ip fs ∧
    (JsonnetRenderer.import_callback_st ud td ip fs).1
      = JsonnetRenderer.import_callback ud td ip fs := by
  refine ⟨?_, ?_, ?_⟩
  · rw [import_callback_st_eq]
  · rw [import_callback_st_eq, import_callback_st_eq]
  · rw [import_callback_st_eq]
